import Mathlib

/-!
Verification of the multi-agent customer-support repository: shallow
embedding of the retry executor, the domain tool layer, the relational
query layer, the payment agent, and the auth middleware, with theorems
settling the frozen claims about them.
-/

/-! ## Retry executor

The source wraps every boundary call (persistence queries, payment-gateway
calls) in the tenacity decorator
`@retry(stop=stop_after_attempt(3), wait=wait_exponential(multiplier=0.2, min=0.2, max=2))`.
The decorator itself is an external library; it is modelled here by
`retryExec`, following tenacity semantics: at most `maxAttempts` attempts
(always at least one), retry on any raised error, and a sleep of
`wait_exponential` after the k-th failed attempt of
`max(min, min(multiplier * 2 ^ k, max))` seconds (`exp_base` defaults to 2
in every call in the source). -/

/-- A retry policy: the arguments of a tenacity `retry(...)` decoration.
Delays are exact rationals (0.2 is 1/5). -/
structure RetryPolicy where
  maxAttempts : Nat
  multiplier : ℚ
  minDelay : ℚ
  maxDelay : ℚ
  deriving Repr, DecidableEq

/-- The policy used by every db query and by both payment tools in the
source: `stop_after_attempt(3), wait_exponential(multiplier=0.2, min=0.2, max=2)`. -/
def dbRetryPolicy : RetryPolicy :=
  { maxAttempts := 3, multiplier := 1/5, minDelay := 1/5, maxDelay := 2 }

/-- The payment tools in src/agents/payment_agent.py use the same tenacity
arguments as the db layer. -/
def paymentRetryPolicy : RetryPolicy := dbRetryPolicy

/-- The inference retry configuration from src/config.py:
`HttpRetryOptions(attempts=5, exp_base=7, initial_delay=1, http_status_codes=[429, 500, 503, 504])`. -/
structure HttpRetryOptions where
  attempts : Nat
  expBase : Nat
  initialDelay : Nat
  httpStatusCodes : List Nat
  deriving Repr, DecidableEq

/-- `retry_config` from src/config.py. -/
def retry_config : HttpRetryOptions :=
  { attempts := 5, expBase := 7, initialDelay := 1
    httpStatusCodes := [429, 500, 503, 504] }

/-- tenacity `wait_exponential` with `exp_base = 2`: the sleep after the
failed attempt number `k` (1-based). -/
def waitExponential (p : RetryPolicy) (k : Nat) : ℚ :=
  max p.minDelay (min (p.multiplier * 2 ^ k) p.maxDelay)

/-- The trace of one retry-wrapped call: final outcome, number of attempts
made, and the list of sleeps between consecutive attempts, in order. -/
structure RetryTrace (E A : Type) where
  result : Except E A
  attempts : Nat
  delays : List ℚ
  deriving Repr

/-- One run of the tenacity loop: `i` is the 0-based index of the current
attempt, the second argument is the remaining attempt budget. tenacity
always makes the current attempt and stops once the budget is spent,
retrying on every error (the decorations in the source pass no `retry=`
filter, so the default — retry on any exception — applies). -/
def retryAux (p : RetryPolicy) (f : Nat → Except E A) : Nat → Nat → RetryTrace E A
  | i, 0 => ⟨f i, 1, []⟩
  | i, 1 => ⟨f i, 1, []⟩
  | i, left + 2 =>
    match f i with
    | .ok a => ⟨.ok a, 1, []⟩
    | .error _ =>
      let t := retryAux p f (i + 1) (left + 1)
      ⟨t.result, t.attempts + 1, waitExponential p (i + 1) :: t.delays⟩

/-- Run a call with per-attempt outcomes `f` under policy `p`. -/
def retryExec (p : RetryPolicy) (f : Nat → Except E A) : RetryTrace E A :=
  retryAux p f 0 p.maxAttempts

/-! ## Relational store model

The queries in src/db/ are embedded over in-memory row lists; a SQL
`SELECT ... WHERE <match> LIMIT 1` becomes `List.find?` on the table, and
the driver/connection failure modes become an `Except` around the table
value. -/

/-- Failure modes seen by a caller of the db layer: a psycopg2.Error, the
RuntimeError raised by `_connect` when DATABASE_URL is unset
(src/db/connection.py), or any other exception. -/
inductive DbErr
  | pg
  | runtime
  | exc
  deriving Repr, DecidableEq

/-- A row of the `products` table: {name, description, price in cents}. -/
structure ProductRow where
  name : String
  description : String
  priceCents : Nat
  deriving Repr, DecidableEq

/-- A row of the `inventory` table. -/
structure InventoryRow where
  productName : String
  status : String
  quantity : Nat
  deriving Repr, DecidableEq

/-- A row of the `shipping_estimates` table. -/
structure ShippingRow where
  productName : String
  standardDays : String
  standardCost : String
  expressDays : String
  expressCost : String
  deriving Repr, DecidableEq

/-- A row of the `tracking_info` table. -/
structure TrackingRow where
  trackingNumber : String
  status : String
  lastLocation : String
  eta : String
  deriving Repr, DecidableEq

/-- A row of the `payments` table: {intent id (unique key), amount in
cents, currency, customer email, status, created timestamp}. -/
structure PaymentRow where
  intentId : String
  amountCents : Int
  currency : String
  customerEmail : Option String
  status : String
  createdAt : Nat
  deriving Repr, DecidableEq

/-- Lowercasing used by the SQL `LOWER(...)` comparisons: `Char.toLower`
mapped over the characters (the behaviour of both Postgres `LOWER` and
Python `str.lower` on the ASCII business keys the store holds). -/
def lowerStr (s : String) : String := String.mk (s.data.map Char.toLower)

/-- `query_product_by_name` (src/db/product_queries.py):
`SELECT ... WHERE LOWER(name) = LOWER(%s) LIMIT 1`. -/
def query_product_by_name (rows : List ProductRow) (name : String) : Option ProductRow :=
  rows.find? fun r => lowerStr r.name == lowerStr name

/-- `query_inventory` (src/db/inventory_queries.py):
`SELECT ... WHERE LOWER(product_name) = LOWER(%s) LIMIT 1`. -/
def query_inventory (rows : List InventoryRow) (productName : String) : Option InventoryRow :=
  rows.find? fun r => lowerStr r.productName == lowerStr productName

/-- `query_shipping_estimate` (src/db/shipping_queries.py):
`SELECT ... WHERE LOWER(product_name) = LOWER(%s) LIMIT 1`. -/
def query_shipping_estimate (rows : List ShippingRow) (productName : String) : Option ShippingRow :=
  rows.find? fun r => lowerStr r.productName == lowerStr productName

/-- `query_tracking` (src/db/shipping_queries.py):
`SELECT ... WHERE tracking_number = %s LIMIT 1` — exact match, no LOWER. -/
def query_tracking (rows : List TrackingRow) (trackingNumber : String) : Option TrackingRow :=
  rows.find? fun r => r.trackingNumber == trackingNumber

/-- `insert_payment` (src/db/payment_queries.py):
`INSERT INTO payments ... ON CONFLICT (stripe_payment_intent_id) DO UPDATE SET status = excluded.status`.
On a key conflict only `status` is overwritten; a fresh key appends a full
new row, with `created_at` filled by the store (`now`). -/
def insert_payment (table : List PaymentRow) (intentId : String) (amountCents : Int)
    (currency : String) (customerEmail : Option String) (status : String)
    (now : Nat) : List PaymentRow :=
  if table.any fun r => r.intentId == intentId then
    table.map fun r =>
      if r.intentId == intentId then { r with status := status } else r
  else
    table ++ [⟨intentId, amountCents, currency, customerEmail, status, now⟩]

/-- Python truthiness of an `os.environ.get` result: `None` and the empty
string are falsy. -/
def truthy : Option String → Bool
  | none => false
  | some s => s ≠ ""

/-- `get_db` (src/db/connection.py): the inner `_connect` raises
RuntimeError when DATABASE_URL is unset and otherwise attempts a driver
connection; `_connect` is tenacity-wrapped with the db policy, and the
default tenacity predicate retries the RuntimeError like any other
exception. `conn i` is the driver outcome of attempt `i`. -/
def get_db (databaseUrl : Option String) (conn : Nat → Except DbErr Unit) :
    RetryTrace DbErr Unit :=
  retryExec dbRetryPolicy fun i =>
    if truthy databaseUrl = false then .error .runtime else conn i

/-! ## String formatting helpers -/

/-- Two-digit zero-padded rendering of a value below 100. -/
def pad2 (n : Nat) : String :=
  if n < 10 then "0" ++ toString n else toString n

/-- Python `f"{cents / 100:.2f}"` for a non-negative integer number of
cents: exact decimal rendering with two digits after the point. (For the
int4-sized cents values the store holds, the float division and `.2f`
rounding in Python reproduce the exact decimal.) -/
def centsToDollars (c : Nat) : String :=
  toString (c / 100) ++ "." ++ pad2 (c % 100)

/-- Python `f"{q:.2f}"` for a rational amount: round to a whole number of
cents, then render with two decimals. -/
def formatRat2 (q : ℚ) : String :=
  let c : Int := round (q * 100)
  (if c < 0 then "-" else "") ++ toString (c.natAbs / 100) ++ "." ++ pad2 (c.natAbs % 100)

/-! ## Domain tool layer

Each tool wraps its whole body in `try/except psycopg2.Error/except
Exception`, so a tool receives either the table contents or a db error and
always produces a string. Apostrophes inside result strings are written as
the escape `\x27`. -/

/-- `get_product_info` (src/agents/product_catalog_agent.py). -/
def get_product_info : Except DbErr (List ProductRow) → String → String
  | .error .pg, _ => "Database error occurred. Please try again later."
  | .error .runtime, _ => "Unexpected error occurred."
  | .error .exc, _ => "Unexpected error occurred."
  | .ok rows, productName =>
    match query_product_by_name rows productName with
    | none => "No product found for \x27" ++ productName ++ "\x27."
    | some r =>
      "Product: " ++ r.name ++ "\nDescription: " ++ r.description ++
        "\nPrice: $" ++ centsToDollars r.priceCents

/-- `get_inventory_info` (src/agents/inventory_agent.py). Note the found
branch interpolates the queried `product_name`, not the stored row name. -/
def get_inventory_info : Except DbErr (List InventoryRow) → String → String
  | .error .pg, _ => "Database error occurred. Please try again later."
  | .error .runtime, _ => "Unexpected error occurred."
  | .error .exc, _ => "Unexpected error occurred."
  | .ok rows, productName =>
    match query_inventory rows productName with
    | none => "No inventory information found for \x27" ++ productName ++ "\x27."
    | some r =>
      productName ++ " is " ++ r.status ++ " with " ++ toString r.quantity ++
        " units available."

/-- `get_shipping_estimate` (src/agents/shipping_agent.py). -/
def get_shipping_estimate : Except DbErr (List ShippingRow) → String → String → String
  | .error .pg, _, _ => "Database error occurred. Please try again later."
  | .error .runtime, _, _ => "Unexpected error occurred."
  | .error .exc, _, _ => "Unexpected error occurred."
  | .ok rows, productName, destination =>
    match query_shipping_estimate rows productName with
    | none => "No shipping estimate found for \x27" ++ productName ++ "\x27."
    | some r =>
      "Standard: " ++ r.standardDays ++ " (" ++ r.standardCost ++ "), Express: " ++
        r.expressDays ++ " (" ++ r.expressCost ++ "). Destination: " ++ destination ++ "."

/-- `get_tracking_info` (src/agents/shipping_agent.py). -/
def get_tracking_info : Except DbErr (List TrackingRow) → String → String
  | .error .pg, _ => "Database error occurred. Please try again later."
  | .error .runtime, _ => "Unexpected error occurred."
  | .error .exc, _ => "Unexpected error occurred."
  | .ok rows, trackingNumber =>
    match query_tracking rows trackingNumber with
    | none => "No tracking data found for tracking number \x27" ++ trackingNumber ++ "\x27."
    | some t =>
      "Status: " ++ t.status ++ ". Last seen in " ++ t.lastLocation ++
        ". Estimated delivery: " ++ t.eta ++ "."

/-! ## Payment agent (src/agents/payment_agent.py) -/

/-- Gateway failure modes distinguished by the except clauses of the
payment tools: `stripe.error.APIConnectionError`, any other
`stripe.error.StripeError` (declined, invalid request, transient gateway
errors alike), or any other exception. -/
inductive StripeErr
  | apiConnection
  | stripeOther
  | exc
  deriving Repr, DecidableEq

/-- A Stripe PaymentIntent as seen by the agent; a retrieved intent may
lack the amount or currency field (`None` in Python). -/
structure StripeIntent where
  id : String
  status : String
  amount : Option Int
  currency : Option String
  clientSecret : String
  deriving Repr, DecidableEq

/-- Exceptions the Python bodies can raise past their own handlers. -/
inductive PyExc
  | typeErr
  | attrErr
  deriving Repr, DecidableEq

/-- The success string of `create_payment_intent`. -/
def createSuccessString (intent : StripeIntent) (amount : ℚ) (currency : String) : String :=
  "Created payment intent.\nID: " ++ intent.id ++ "\nStatus: " ++ intent.status ++
    "\nAmount: " ++ formatRat2 amount ++ " " ++ currency.toUpper ++
    "\nClient secret (for frontend): " ++ intent.clientSecret

/-- The undecorated body of `create_payment_intent`: checks the key, calls
the gateway, attempts the advisory db write (whose failure is only
logged), and formats. Returns the result string together with the list of
log messages emitted. The body catches every exception, so it always
returns normally. -/
def create_payment_intent_body (stripeKey : Option String)
    (gw : Except StripeErr StripeIntent) (db : Except DbErr Unit)
    (amount : ℚ) (currency : String) : String × List String :=
  if truthy stripeKey = false then
    ("ERROR: Stripe secret key is not configured.", [])
  else
    match gw with
    | .ok intent =>
      let logs :=
        match db with
        | .ok _ => []
        | .error .pg => ["DB Error in create_payment_intent"]
        | .error _ => ["Unexpected DB error in create_payment_intent"]
      (createSuccessString intent amount currency, logs)
    | .error .apiConnection =>
      ("Payment service is temporarily unavailable.",
        ["Stripe connection error in create_payment_intent"])
    | .error .stripeOther =>
      ("Payment service error occurred. Please try again later.",
        ["Stripe error in create_payment_intent"])
    | .error .exc =>
      ("Sorry, I couldn\x27t process your payment request right now. The payment system is temporarily unavailable. Please try again later.",
        ["Unexpected error in create_payment_intent"])

/-- The success string of `get_payment_status`. -/
def statusSuccessString (intent : StripeIntent) (amountCents : Int) (currency : String) : String :=
  "Payment intent " ++ intent.id ++ " has status \x27" ++ intent.status ++
    "\x27. Amount: " ++ formatRat2 ((amountCents : ℚ) / 100) ++ " " ++ currency.toUpper ++ "."

/-- The undecorated body of `get_payment_status`: the gateway retrieve is
guarded by except clauses, the advisory db write swallows its own
failures, but the final formatting runs outside every `try`: with
`intent.amount = None`, `f"{None:.2f}"` raises TypeError, and with
`intent.currency = None`, `None.upper()` raises AttributeError — both
escape the body. (When the amount is absent, `int(intent.amount)` already
raises inside the db block, which only logs it.) -/
def get_payment_status_body (stripeKey : Option String)
    (gw : Except StripeErr StripeIntent) (db : Except DbErr Unit) :
    Except PyExc String × List String :=
  if truthy stripeKey = false then
    (.ok "ERROR: Stripe secret key is not configured.", [])
  else
    match gw with
    | .error .apiConnection =>
      (.ok "Payment service is temporarily unavailable.",
        ["Stripe connection error in get_payment_status"])
    | .error .stripeOther =>
      (.ok "Payment service error occurred. Please try again later.",
        ["Stripe error in get_payment_status"])
    | .error .exc =>
      (.ok "Sorry, I couldn\x27t retrieve the payment status right now. The payment system is temporarily unavailable. Please try again later.",
        ["Unexpected error in get_payment_status"])
    | .ok intent =>
      let dbLogs :=
        match intent.amount with
        | none => ["Unexpected DB error in get_payment_status"]
        | some _ =>
          match db with
          | .ok _ => []
          | .error .pg => ["DB Error in get_payment_status"]
          | .error _ => ["Unexpected DB error in get_payment_status"]
      match intent.amount with
      | none => (.error .typeErr, dbLogs)
      | some a =>
        match intent.currency with
        | none => (.error .attrErr, dbLogs)
        | some c => (.ok (statusSuccessString intent a c), dbLogs)

/-- The decorated `create_payment_intent`: the tenacity wrapper around the
body, with per-attempt gateway and db outcomes. The body never raises, so
the wrapper sees `.ok` on every attempt. -/
def create_payment_intent_run (stripeKey : Option String)
    (gw : Nat → Except StripeErr StripeIntent) (db : Nat → Except DbErr Unit)
    (amount : ℚ) (currency : String) : RetryTrace PyExc String :=
  retryExec paymentRetryPolicy fun i =>
    .ok (create_payment_intent_body stripeKey (gw i) (db i) amount currency).1

/-- The decorated `get_payment_status`. -/
def get_payment_status_run (stripeKey : Option String)
    (gw : Nat → Except StripeErr StripeIntent) (db : Nat → Except DbErr Unit) :
    RetryTrace PyExc String :=
  retryExec paymentRetryPolicy fun i =>
    (get_payment_status_body stripeKey (gw i) (db i)).1

/-! ## Auth middleware (src/services/payment_service.py,
inventory_service.py, shipping_service.py — identical logic) -/

/-- Modelled from the spec: the enforcing-mode rejection. In the service
files the `raise HTTPException(status_code=401)` line is present only as a
comment under the advisory-mode warning ("When ready to enforce
security"), so the enforcing branch follows the spec wording ("a mismatch
causes an immediate unauthorized rejection before the handler runs");
the advisory branch and everything else follow the live code of
`require_internal_api_key`. -/
inductive AuthMode
  | advisory
  | enforcing
  deriving Repr, DecidableEq

/-- An inbound HTTP request as the middleware sees it: the URL path and
the optional `x-internal-api-key` header. -/
structure AuthRequest where
  path : String
  apiKeyHeader : Option String
  deriving Repr, DecidableEq

/-- Middleware verdict: forward to the handler or reject with a status. -/
inductive AuthOutcome
  | forwarded
  | rejected (status : Nat)
  deriving Repr, DecidableEq

/-- What one middleware evaluation did: the verdict, whether an
`[AUTH WARNING]` was printed, and whether the header was read at all. -/
structure AuthResult where
  outcome : AuthOutcome
  warned : Bool
  readHeader : Bool
  deriving Repr, DecidableEq

/-- Python `path.startswith(pre)`, evaluated over the character lists. -/
def startsWithStr (s pre : String) : Bool := s.data.take pre.data.length == pre.data

/-- `require_internal_api_key`: discovery paths pass unchecked; with a
truthy `A2A_API_KEY` the header is compared, a mismatch warns and then
either proceeds (advisory) or rejects with 401 (enforcing, modelled from
the spec — see `AuthMode`); with no key configured every request passes
with the header never read. -/
def require_internal_api_key (envKey : Option String) (mode : AuthMode)
    (req : AuthRequest) : AuthResult :=
  if startsWithStr req.path "/.well-known" then
    ⟨.forwarded, false, false⟩
  else if truthy envKey then
    if req.apiKeyHeader == envKey then
      ⟨.forwarded, false, true⟩
    else
      match mode with
      | .advisory => ⟨.forwarded, true, true⟩
      | .enforcing => ⟨.rejected 401, true, true⟩
  else
    ⟨.forwarded, false, false⟩

/-! ## Sample data for concrete witnesses -/

/-- A one-row products table matching the spec scenario. -/
def sampleProducts : List ProductRow :=
  [⟨"iPhone 15 Pro", "Latest Apple smartphone", 99900⟩]

/-- A one-row inventory table. -/
def sampleInventory : List InventoryRow :=
  [⟨"iPhone 15 Pro", "in_stock", 5⟩]

/-- A one-row tracking table. -/
def sampleTracking : List TrackingRow :=
  [⟨"1Z999", "in_transit", "Oakland", "2026-10-20"⟩]

/-- A one-row payments table. -/
def samplePayments : List PaymentRow :=
  [⟨"pi_1", 999, "usd", some "a@b.c", "requires_action", 100⟩]

/-- A retrieved intent with an absent amount field. -/
def intentMissingAmount : StripeIntent :=
  ⟨"pi_noamount", "succeeded", none, some "usd", "cs_1"⟩

/-- A well-formed created intent. -/
def sampleIntent : StripeIntent :=
  ⟨"pi_1", "requires_action", some 999, some "usd", "cs_1"⟩

/-! ## Retry executor lemmas -/

/-- Unfolding: a two-or-more-attempt budget makes the current attempt and
recurses on error. -/
theorem retryAux_succ2 (p : RetryPolicy) (f : Nat → Except E A) (i l : Nat) :
    retryAux p f i (l + 1 + 1) =
      match f i with
      | .ok a => ⟨.ok a, 1, []⟩
      | .error _ =>
        let t := retryAux p f (i + 1) (l + 1)
        ⟨t.result, t.attempts + 1, waitExponential p (i + 1) :: t.delays⟩ := rfl

/-- The loop makes at least one and at most `max 1 budget` attempts. -/
theorem retryAux_attempts_le (p : RetryPolicy) (f : Nat → Except E A) :
    ∀ left i, (retryAux p f i left).attempts ≤ max 1 left := by
  intro left
  induction left with
  | zero => intro i; exact le_max_left 1 0
  | succ l ih =>
    intro i
    cases l with
    | zero => exact le_max_left 1 1
    | succ m =>
      rw [retryAux_succ2]
      cases hf : f i with
      | ok a => exact le_max_left 1 (m + 1 + 1)
      | error e =>
        have h := ih (i + 1)
        show (retryAux p f (i + 1) (m + 1)).attempts + 1 ≤ max 1 (m + 1 + 1)
        omega

/-- Every sleep in a trace is a `waitExponential` value at an attempt
number past the starting attempt. -/
theorem retryAux_delays_mem (p : RetryPolicy) (f : Nat → Except E A) :
    ∀ left i d, d ∈ (retryAux p f i left).delays →
      ∃ j, i + 1 ≤ j ∧ d = waitExponential p j := by
  intro left
  induction left with
  | zero =>
    intro i d hd
    exact absurd (show d ∈ ([] : List ℚ) from hd) (List.not_mem_nil d)
  | succ l ih =>
    intro i d hd
    cases l with
    | zero => exact absurd (show d ∈ ([] : List ℚ) from hd) (List.not_mem_nil d)
    | succ m =>
      rw [retryAux_succ2] at hd
      cases hf : f i with
      | ok a =>
        rw [hf] at hd
        exact absurd (show d ∈ ([] : List ℚ) from hd) (List.not_mem_nil d)
      | error e =>
        rw [hf] at hd
        have hd2 : d = waitExponential p (i + 1) ∨
            d ∈ (retryAux p f (i + 1) (m + 1)).delays := List.mem_cons.mp hd
        rcases hd2 with h | h
        · exact ⟨i + 1, le_refl _, h⟩
        · obtain ⟨j, hj, hdj⟩ := ih (i + 1) d h
          exact ⟨j, by omega, hdj⟩

/-- `wait_exponential` is monotone in the attempt number when the
multiplier is non-negative. -/
theorem waitExponential_mono (p : RetryPolicy) (hm : 0 ≤ p.multiplier)
    {j k : Nat} (h : j ≤ k) : waitExponential p j ≤ waitExponential p k := by
  unfold waitExponential
  apply max_le_max le_rfl
  apply min_le_min _ le_rfl
  apply mul_le_mul_of_nonneg_left _ hm
  exact pow_le_pow_right₀ one_le_two h

/-- `wait_exponential` stays within the configured `[min, max]` band. -/
theorem waitExponential_bounds (p : RetryPolicy) (h : p.minDelay ≤ p.maxDelay) (j : Nat) :
    p.minDelay ≤ waitExponential p j ∧ waitExponential p j ≤ p.maxDelay :=
  ⟨le_max_left _ _, max_le h (min_le_right _ _)⟩

/-- The sleeps of a trace are non-decreasing. -/
theorem retryAux_delays_chain (p : RetryPolicy) (f : Nat → Except E A)
    (hm : 0 ≤ p.multiplier) :
    ∀ left i, List.Chain' (fun a b => a ≤ b) (retryAux p f i left).delays := by
  intro left
  induction left with
  | zero => intro i; exact List.chain'_nil
  | succ l ih =>
    intro i
    cases l with
    | zero => exact List.chain'_nil
    | succ m =>
      rw [retryAux_succ2]
      cases hf : f i with
      | ok a => exact List.chain'_nil
      | error e =>
        show List.Chain' (fun a b => a ≤ b)
          (waitExponential p (i + 1) :: (retryAux p f (i + 1) (m + 1)).delays)
        refine List.chain'_cons'.mpr ⟨?_, ih (i + 1)⟩
        intro b hb
        have hbmem : b ∈ (retryAux p f (i + 1) (m + 1)).delays :=
          List.mem_of_mem_head? hb
        obtain ⟨j, hj, rfl⟩ := retryAux_delays_mem p f (m + 1) (i + 1) b hbmem
        exact waitExponential_mono p hm (by omega)

/-- C1: every retry-wrapped boundary call makes at most the policy's
maximum number of attempts before returning or propagating the error, the
sleeps between consecutive attempts are non-decreasing and stay within the
policy's `[min, max]` delay band, and the attempt bounds configured in the
source are 3 (tenacity at the persistence and payment boundaries) and 5
(the inference `retry_config`), both within the stated 3–5 range. -/
theorem retry_bounded_attempts_and_backoff (p : RetryPolicy) (f : Nat → Except E A)
    (h1 : 1 ≤ p.maxAttempts) (hm : 0 ≤ p.multiplier) (hmm : p.minDelay ≤ p.maxDelay) :
    (retryExec p f).attempts ≤ p.maxAttempts ∧
      List.Chain' (fun a b => a ≤ b) (retryExec p f).delays ∧
      (∀ d ∈ (retryExec p f).delays, p.minDelay ≤ d ∧ d ≤ p.maxDelay) ∧
      dbRetryPolicy.maxAttempts = 3 ∧ 3 ≤ retry_config.attempts ∧ retry_config.attempts ≤ 5 := by
  refine ⟨?_, ?_, ?_, rfl, by decide, by decide⟩
  · have h := retryAux_attempts_le p f p.maxAttempts 0
    unfold retryExec
    omega
  · exact retryAux_delays_chain p f hm p.maxAttempts 0
  · intro d hd
    obtain ⟨j, _, rfl⟩ := retryAux_delays_mem p f p.maxAttempts 0 d hd
    exact waitExponential_bounds p hmm j

/-- Witness for C1 at the concrete db/payment policy with a
persistently failing call. -/
theorem retry_bounded_attempts_and_backoff_witness :
    (retryExec dbRetryPolicy (fun _ => (Except.error () : Except Unit Unit))).attempts ≤
        dbRetryPolicy.maxAttempts ∧
      List.Chain' (fun a b => a ≤ b)
        (retryExec dbRetryPolicy (fun _ => (Except.error () : Except Unit Unit))).delays ∧
      (∀ d ∈ (retryExec dbRetryPolicy (fun _ => (Except.error () : Except Unit Unit))).delays,
        dbRetryPolicy.minDelay ≤ d ∧ d ≤ dbRetryPolicy.maxDelay) ∧
      dbRetryPolicy.maxAttempts = 3 ∧ 3 ≤ retry_config.attempts ∧ retry_config.attempts ≤ 5 :=
  retry_bounded_attempts_and_backoff dbRetryPolicy _
    (by decide) (by norm_num [dbRetryPolicy]) (by norm_num [dbRetryPolicy])

/-! ## Lookup and formatting claims -/

/-- Case-insensitive keys retrieve the same product record. -/
theorem query_product_key_case (rows : List ProductRow) (a b : String)
    (hab : lowerStr a = lowerStr b) :
    query_product_by_name rows a = query_product_by_name rows b := by
  simp only [query_product_by_name, hab]

/-- Case-insensitive keys retrieve the same inventory record. -/
theorem query_inventory_key_case (rows : List InventoryRow) (a b : String)
    (hab : lowerStr a = lowerStr b) :
    query_inventory rows a = query_inventory rows b := by
  simp only [query_inventory, hab]

/-- Case-insensitive keys retrieve the same shipping-estimate record. -/
theorem query_shipping_key_case (rows : List ShippingRow) (a b : String)
    (hab : lowerStr a = lowerStr b) :
    query_shipping_estimate rows a = query_shipping_estimate rows b := by
  simp only [query_shipping_estimate, hab]

/-- C7: a product lookup over a healthy store formats a matching record as
exactly `Product: {name}\nDescription: {description}\nPrice: ${price:.2f}`
with the price in cents divided by 100 and rendered to two decimals
(99900 renders as 999.00), and formats a missing record as exactly
`No product found for '{name}'.`. -/
theorem product_lookup_formats (rows : List ProductRow) (name : String) :
    (∀ r, query_product_by_name rows name = some r →
      get_product_info (.ok rows) name =
        "Product: " ++ r.name ++ "\nDescription: " ++ r.description ++
          "\nPrice: $" ++ centsToDollars r.priceCents) ∧
    (query_product_by_name rows name = none →
      get_product_info (.ok rows) name = "No product found for \x27" ++ name ++ "\x27.") ∧
    centsToDollars 99900 = "999.00" := by
  refine ⟨?_, ?_, rfl⟩
  · intro r h
    simp only [get_product_info]
    rw [h]
  · intro h
    simp only [get_product_info]
    rw [h]

/-- Witness for C7 on the spec's sample store: price_cents 99900 renders
as $999.00. -/
theorem product_lookup_formats_witness :
    get_product_info (.ok sampleProducts) "iPhone 15 Pro" =
      "Product: iPhone 15 Pro\nDescription: Latest Apple smartphone\nPrice: $999.00" := by
  have h := (product_lookup_formats sampleProducts "iPhone 15 Pro").1
    ⟨"iPhone 15 Pro", "Latest Apple smartphone", 99900⟩ rfl
  rw [h]
  decide

/-- C9 counterexample: over a store holding an `iPhone 15 Pro` inventory
row, the keys `iphone 15 pro` and `IPHONE 15 PRO` differ only in case and
retrieve the same record, yet the two formatted tool strings differ,
because the found string interpolates the caller's key verbatim. -/
theorem case_insensitivity_formats_counterexample :
    lowerStr "iphone 15 pro" = lowerStr "IPHONE 15 PRO" ∧
    query_inventory sampleInventory "iphone 15 pro" =
      query_inventory sampleInventory "IPHONE 15 PRO" ∧
    get_inventory_info (.ok sampleInventory) "iphone 15 pro" ≠
      get_inventory_info (.ok sampleInventory) "IPHONE 15 PRO" := by
  refine ⟨rfl, rfl, ?_⟩
  decide

/-- C9 (amended): product, inventory and shipping-estimate lookups are
case-insensitive at the record level (keys equal up to case retrieve the
same record), and the product and shipping-estimate found-strings — which
interpolate only record fields (plus the destination) — are identical for
case-variant keys; the inventory found-string and the not-found strings
interpolate the caller's key and so preserve its case. The tracking lookup
is case-sensitive: a row is returned only when its tracking number equals
the key exactly. -/
theorem key_case_sensitivity (a b : String) (hab : lowerStr a = lowerStr b) :
    (∀ rows : List ProductRow, query_product_by_name rows a = query_product_by_name rows b) ∧
    (∀ rows : List InventoryRow, query_inventory rows a = query_inventory rows b) ∧
    (∀ rows : List ShippingRow, query_shipping_estimate rows a = query_shipping_estimate rows b) ∧
    (∀ (rows : List ProductRow) (r : ProductRow), query_product_by_name rows a = some r →
      get_product_info (.ok rows) a = get_product_info (.ok rows) b) ∧
    (∀ (rows : List ShippingRow) (r : ShippingRow) (destination : String),
      query_shipping_estimate rows a = some r →
      get_shipping_estimate (.ok rows) a destination =
        get_shipping_estimate (.ok rows) b destination) ∧
    (∀ (rows : List TrackingRow) (t : TrackingRow), query_tracking rows a = some t →
      t.trackingNumber = a) := by
  refine ⟨fun rows => query_product_key_case rows a b hab,
    fun rows => query_inventory_key_case rows a b hab,
    fun rows => query_shipping_key_case rows a b hab, ?_, ?_, ?_⟩
  · intro rows r h
    have hb : query_product_by_name rows b = some r :=
      (query_product_key_case rows a b hab) ▸ h
    simp only [get_product_info]
    rw [h, hb]
  · intro rows r destination h
    have hb : query_shipping_estimate rows b = some r :=
      (query_shipping_key_case rows a b hab) ▸ h
    simp only [get_shipping_estimate]
    rw [h, hb]
  · intro rows t h
    have hp := List.find?_some h
    exact eq_of_beq hp

/-- Witness for C9 (amended) at a concrete case-variant pair over the
sample stores. -/
theorem key_case_sensitivity_witness :
    query_product_by_name sampleProducts "iphone 15 pro" =
      query_product_by_name sampleProducts "IPHONE 15 PRO" ∧
    get_product_info (.ok sampleProducts) "iphone 15 pro" =
      get_product_info (.ok sampleProducts) "IPHONE 15 PRO" := by
  have h := key_case_sensitivity "iphone 15 pro" "IPHONE 15 PRO" rfl
  exact ⟨h.1 sampleProducts,
    h.2.2.2.1 sampleProducts ⟨"iPhone 15 Pro", "Latest Apple smartphone", 99900⟩ rfl⟩

/-- C8: upserting a payment whose intent id already exists rewrites the
table so that exactly the matching rows get the new status and every other
field of every row is unchanged (in particular amount, currency, customer
email and created timestamp survive from the earlier write); a fresh
intent id appends one complete new row. -/
theorem payment_upsert (table : List PaymentRow) (intentId : String)
    (amountCents : Int) (currency : String) (customerEmail : Option String)
    (status : String) (now : Nat) :
    ((∃ r ∈ table, r.intentId = intentId) →
      insert_payment table intentId amountCents currency customerEmail status now =
        table.map fun r =>
          if r.intentId == intentId then
            { intentId := r.intentId, amountCents := r.amountCents,
              currency := r.currency, customerEmail := r.customerEmail,
              status := status, createdAt := r.createdAt }
          else r) ∧
    ((∀ r ∈ table, r.intentId ≠ intentId) →
      insert_payment table intentId amountCents currency customerEmail status now =
        table ++ [⟨intentId, amountCents, currency, customerEmail, status, now⟩]) := by
  constructor
  · rintro ⟨r, hr, hid⟩
    unfold insert_payment
    rw [if_pos]
    exact List.any_eq_true.mpr ⟨r, hr, by simp [hid]⟩
  · intro h
    unfold insert_payment
    rw [if_neg]
    intro hany
    obtain ⟨r, hr, hid⟩ := List.any_eq_true.mp hany
    exact h r hr (eq_of_beq hid)

/-- Witness for C8 on the sample payments table: re-inserting `pi_1` with
new amount/currency/email changes only its status; inserting `pi_2`
appends a full new row. -/
theorem payment_upsert_witness :
    insert_payment samplePayments "pi_1" 500 "eur" none "succeeded" 200 =
      [⟨"pi_1", 999, "usd", some "a@b.c", "succeeded", 100⟩] ∧
    insert_payment samplePayments "pi_2" 500 "eur" none "requires_action" 200 =
      samplePayments ++ [⟨"pi_2", 500, "eur", none, "requires_action", 200⟩] := by
  constructor
  · have h := (payment_upsert samplePayments "pi_1" 500 "eur" none "succeeded" 200).1
      ⟨⟨"pi_1", 999, "usd", some "a@b.c", "requires_action", 100⟩, by decide, rfl⟩
    rw [h]
    decide
  · have h := (payment_upsert samplePayments "pi_2" 500 "eur" none "requires_action" 200).2
      (by decide)
    rw [h]

/-! ## Auth gate claims -/

/-- C6: in both modes a capability-discovery request reaches the handler
with the credential never read; with a key configured, a non-discovery
request with a wrong or missing `x-internal-api-key` header is warned
about and still forwarded in advisory mode, and rejected 401 before the
handler in enforcing mode. -/
theorem auth_gate_modes (envKey : Option String) (mode : AuthMode) (req : AuthRequest)
    (k : String) (hk : truthy (some k) = true)
    (hdisc : startsWithStr req.path "/.well-known" = true)
    (req2 : AuthRequest) (hnodisc : startsWithStr req2.path "/.well-known" = false)
    (hmismatch : (req2.apiKeyHeader == some k) = false) :
    require_internal_api_key envKey mode req = ⟨.forwarded, false, false⟩ ∧
    require_internal_api_key (some k) .advisory req2 = ⟨.forwarded, true, true⟩ ∧
    require_internal_api_key (some k) .enforcing req2 = ⟨.rejected 401, true, true⟩ := by
  refine ⟨?_, ?_, ?_⟩ <;>
    simp [require_internal_api_key, hdisc, hnodisc, hk, hmismatch]

/-- Witness for C6 at concrete requests: a key is configured, the
discovery request carries no header, the task request carries a wrong
header. -/
theorem auth_gate_modes_witness :
    require_internal_api_key (some "secret") .enforcing
      ⟨"/.well-known/agent-card.json", none⟩ = ⟨.forwarded, false, false⟩ ∧
    require_internal_api_key (some "secret") .advisory
      ⟨"/tasks", some "wrong-key-123"⟩ = ⟨.forwarded, true, true⟩ ∧
    require_internal_api_key (some "secret") .enforcing
      ⟨"/tasks", some "wrong-key-123"⟩ = ⟨.rejected 401, true, true⟩ := by
  have h := auth_gate_modes (some "secret") .enforcing
    ⟨"/.well-known/agent-card.json", none⟩ "secret" (by decide) (by decide)
    ⟨"/tasks", some "wrong-key-123"⟩ (by decide) (by decide)
  exact ⟨h.1, h.2.1, h.2.2⟩

/-- C10: with `A2A_API_KEY` unset the middleware forwards every request —
discovery or task path, in either mode — without reading the
`x-internal-api-key` header and without warning, so its outcome is
identical for any two requests that differ only in that header. -/
theorem auth_disabled_header_noninterference (mode : AuthMode) (path : String)
    (h1 h2 : Option String) :
    require_internal_api_key none mode ⟨path, h1⟩ =
      require_internal_api_key none mode ⟨path, h2⟩ ∧
    require_internal_api_key none mode ⟨path, h1⟩ = ⟨.forwarded, false, false⟩ := by
  unfold require_internal_api_key
  by_cases hp : startsWithStr path "/.well-known" <;> simp [hp, truthy]

/-! ## Payment boundary claims -/

/-- A wrapped call whose first attempt returns normally makes exactly one
attempt. -/
theorem retryExec_f0_ok (p : RetryPolicy) (f : Nat → Except E A) (a : A)
    (h : f 0 = Except.ok a) : retryExec p f = ⟨Except.ok a, 1, []⟩ := by
  unfold retryExec
  cases hp : p.maxAttempts with
  | zero =>
    have h0 : retryAux p f 0 0 = ⟨f 0, 1, []⟩ := rfl
    rw [h0, h]
  | succ l =>
    cases l with
    | zero =>
      have h0 : retryAux p f 0 1 = ⟨f 0, 1, []⟩ := rfl
      rw [h0, h]
    | succ m =>
      rw [retryAux_succ2, h]

/-- C2 (evaluation at the failing input): with the gateway returning a
retrieved intent whose amount field is absent, the decorated
`get_payment_status` does not return a string at all — the format raises
TypeError outside every handler, the wrapper retries it, and after the
3-attempt bound the exception propagates to the caller. -/
theorem get_payment_status_raises_on_missing_amount :
    (get_payment_status_run (some "sk_test") (fun _ => .ok intentMissingAmount)
      (fun _ => .ok ())).result = .error .typeErr ∧
    (get_payment_status_run (some "sk_test") (fun _ => .ok intentMissingAmount)
      (fun _ => .ok ())).attempts = 3 := ⟨rfl, rfl⟩

/-- C3: when the primary gateway action succeeds, the returned string of
`create_payment_intent` and of `get_payment_status` does not depend on the
advisory write-back outcome at all; a failed write-back is logged (the log
list is non-empty) while the returned string is still the success string
describing the gateway outcome. -/
theorem writeback_failure_swallowed (key : Option String) (hkey : truthy key = true)
    (intent : StripeIntent) (amount : ℚ) (currency : String)
    (db1 db2 : Except DbErr Unit) (e : DbErr) :
    (create_payment_intent_body key (.ok intent) db1 amount currency).1 =
      (create_payment_intent_body key (.ok intent) db2 amount currency).1 ∧
    (create_payment_intent_body key (.ok intent) (.error e) amount currency).1 =
      createSuccessString intent amount currency ∧
    (create_payment_intent_body key (.ok intent) (.error e) amount currency).2 ≠ [] ∧
    (get_payment_status_body key (.ok intent) db1).1 =
      (get_payment_status_body key (.ok intent) db2).1 := by
  obtain ⟨id, st, am, cur, cs⟩ := intent
  cases e <;> cases am <;> cases cur <;>
    simp [create_payment_intent_body, get_payment_status_body, hkey]

/-- Witness for C3: a concrete creation whose write-back hits a store
outage still reports the created intent. -/
theorem writeback_failure_swallowed_witness :
    (create_payment_intent_body (some "sk_test") (.ok sampleIntent)
      (.error DbErr.pg) (999/100) "usd").1 =
      createSuccessString sampleIntent (999/100) "usd" :=
  (writeback_failure_swallowed (some "sk_test") (by decide) sampleIntent
    (999/100) "usd" (.ok ()) (.ok ()) DbErr.pg).2.1

/-- C4 counterexample: with DATABASE_URL unset, a persistence call does
not fail after a single attempt — the RuntimeError configuration failure
is retried by the tenacity wrapper inside `get_db`, which makes all 3
attempts before propagating it. -/
theorem db_config_error_retried_counterexample :
    (get_db none fun _ => .ok ()).attempts = 3 ∧
    ¬ (get_db none fun _ => .ok ()).attempts = 1 ∧
    (get_db none fun _ => .ok ()).result = .error .runtime := by
  refine ⟨rfl, ?_, rfl⟩
  decide

/-- C4 (amended): a payment-gateway call with STRIPE_SECRET_KEY unset
returns the configuration-error string on its single attempt, with no
retry; a persistence call with DATABASE_URL unset raises its configuration
error on every attempt and the connection wrapper retries it to the full
3-attempt bound before propagating it. -/
theorem missing_config_behaviour (gw : Nat → Except StripeErr StripeIntent)
    (db : Nat → Except DbErr Unit) (amount : ℚ) (currency : String)
    (conn : Nat → Except DbErr Unit) :
    (create_payment_intent_run none gw db amount currency).attempts = 1 ∧
    (create_payment_intent_run none gw db amount currency).result =
      .ok "ERROR: Stripe secret key is not configured." ∧
    (get_payment_status_run none gw db).attempts = 1 ∧
    (get_payment_status_run none gw db).result =
      .ok "ERROR: Stripe secret key is not configured." ∧
    (get_db none conn).attempts = 3 ∧
    (get_db none conn).result = .error .runtime :=
  ⟨rfl, rfl, rfl, rfl, rfl, rfl⟩

/-- C5 counterexample: with the gateway raising APIConnectionError on
every attempt, `create_payment_intent` makes exactly one attempt — not the
3-attempt bound — before returning the degraded-service string: the
connector error is converted to a string inside the body, so the retry
decorator never fires. -/
theorem gateway_connector_error_not_retried_counterexample :
    (create_payment_intent_run (some "sk_test") (fun _ => .error .apiConnection)
      (fun _ => .ok ()) (999/100) "usd").attempts = 1 ∧
    ¬ (create_payment_intent_run (some "sk_test") (fun _ => .error .apiConnection)
      (fun _ => .ok ()) (999/100) "usd").attempts = 3 ∧
    (create_payment_intent_run (some "sk_test") (fun _ => .error .apiConnection)
      (fun _ => .ok ()) (999/100) "usd").result =
      .ok "Payment service is temporarily unavailable." := by
  refine ⟨rfl, ?_, ?_⟩
  · decide
  · rfl

/-- C5 (amended): no gateway error is ever retried at the payment
boundary: the except clauses inside the tool bodies convert
connector/network errors and declined/invalid-request gateway errors alike
into their fixed strings, so the surrounding retry decorator sees a normal
return. Every `create_payment_intent` run makes exactly one attempt, and a
`get_payment_status` run whose gateway raises makes exactly one attempt;
with the key configured, a connector error yields the degraded-service
string and any other StripeError yields the gateway-error string, in both
tools after that single attempt. -/
theorem gateway_errors_single_attempt (key : Option String) (hkey : truthy key = true)
    (gw : Nat → Except StripeErr StripeIntent) (db : Nat → Except DbErr Unit)
    (amount : ℚ) (currency : String) (e : StripeErr) :
    (create_payment_intent_run key gw db amount currency).attempts = 1 ∧
    (create_payment_intent_run key (fun _ => .error .apiConnection) db amount currency).result =
      .ok "Payment service is temporarily unavailable." ∧
    (create_payment_intent_run key (fun _ => .error .stripeOther) db amount currency).result =
      .ok "Payment service error occurred. Please try again later." ∧
    (get_payment_status_run key (fun _ => .error e) db).attempts = 1 ∧
    (get_payment_status_run key (fun _ => .error .apiConnection) db).result =
      .ok "Payment service is temporarily unavailable." ∧
    (get_payment_status_run key (fun _ => .error .stripeOther) db).result =
      .ok "Payment service error occurred. Please try again later." := by
  refine ⟨rfl, ?_, ?_, ?_, ?_, ?_⟩
  · show Except.ok (create_payment_intent_body key
        (.error .apiConnection) (db 0) amount currency).1 =
      .ok "Payment service is temporarily unavailable."
    simp [create_payment_intent_body, hkey]
  · show Except.ok (create_payment_intent_body key
        (.error .stripeOther) (db 0) amount currency).1 =
      .ok "Payment service error occurred. Please try again later."
    simp [create_payment_intent_body, hkey]
  · have hs : (get_payment_status_body key (.error e) (db 0)).1 =
        .ok (get_payment_status_body key (.error e) (db 0)).1.toOption.get! := by
      cases e <;> simp [get_payment_status_body, hkey] <;> rfl
    unfold get_payment_status_run
    rw [retryExec_f0_ok _ _ _ hs]
  · have hs : (get_payment_status_body key (.error .apiConnection) (db 0)).1 =
        .ok "Payment service is temporarily unavailable." := by
      simp [get_payment_status_body, hkey]
    unfold get_payment_status_run
    rw [retryExec_f0_ok _ _ _ hs]
  · have hs : (get_payment_status_body key (.error .stripeOther) (db 0)).1 =
        .ok "Payment service error occurred. Please try again later." := by
      simp [get_payment_status_body, hkey]
    unfold get_payment_status_run
    rw [retryExec_f0_ok _ _ _ hs]

/-- Witness for C5 (amended) at a configured key, a persistently failing
gateway and a healthy store. -/
theorem gateway_errors_single_attempt_witness :
    (create_payment_intent_run (some "sk_test") (fun _ => .error .stripeOther)
      (fun _ => .ok ()) (999/100) "usd").attempts = 1 ∧
    (get_payment_status_run (some "sk_test") (fun _ => .error .stripeOther)
      (fun _ => .ok ())).attempts = 1 ∧
    (get_payment_status_run (some "sk_test") (fun _ => .error .stripeOther)
      (fun _ => .ok ())).result =
      .ok "Payment service error occurred. Please try again later." := by
  have h := gateway_errors_single_attempt (some "sk_test") (by decide)
    (fun _ => .error .stripeOther) (fun _ => .ok ()) (999/100) "usd" .stripeOther
  exact ⟨h.1, h.2.2.2.1, h.2.2.2.2.2⟩
